import Mathlib

/-!
Shallow embedding of `guardity-ebpf/src/socket_bind.rs` (the `socket_bind`
LSM-hook decision engine) and proofs of the specification's claims about it.

The function inspects a bind event (address family, big-endian port, the
calling process id and its binary's inode) and two BPF hash maps
(`ALLOWED_SOCKET_BIND`, `DENIED_SOCKET_BIND`) keyed by inode, with a
reserved wildcard key.  On denial it emits one alert record to the
`ALERT_SOCKET_BIND` perf array.  Maps are modelled as immutable snapshots
(functions `Nat → Option Ports`), alert output as a returned list.
-/

namespace SocketBind

/-- Modelled from the spec: `MAX_PORTS` lives in the `guardity-common` crate,
not under the sources embedded here; §8 of the spec fixes it to 32. -/
def MAX_PORTS : Nat := 32

/-- Modelled from the spec: `AF_INET` comes from `consts.rs`, not embedded
here; it is the IPv4 address-family sentinel (value 2 on Linux). -/
def AF_INET : Nat := 2

/-- Modelled from the spec: `INODE_WILDCARD` comes from `consts.rs`, not
embedded here; the spec (§3) calls it a reserved sentinel subject key,
distinct from any real inode (inode 0 is never a real file). -/
def INODE_WILDCARD : Nat := 0

/-- Modelled from the spec: the `Ports` map value of `guardity-common`
(§6 of the spec): an `all` flag, a declared length and a stored sequence of
16-bit port numbers, of which the engine reads at most `MAX_PORTS`
(§3 invariant).  The storage is modelled as a list. -/
structure Ports where
  all : Bool
  len : Nat
  ports : List Nat
deriving DecidableEq, Repr

/-- Modelled from the spec: the `AlertSocketBind` record of
`guardity-common` (§3 of the spec): process id, binary identity (inode)
and the port of the denied bind. -/
structure AlertSocketBind where
  pid : Nat
  binprm_inode : Nat
  port : Nat
deriving DecidableEq, Repr

/-- A snapshot of the two policy maps (`ALLOWED_SOCKET_BIND`,
`DENIED_SOCKET_BIND`), keyed by inode; `none` is an absent entry. -/
structure Maps where
  allowed : Nat → Option Ports
  denied : Nat → Option Ports

/-- The bind event as `socket_bind` reads it from its context: the
socket address family, the raw (big-endian) 16-bit port field, the calling
pid and the current binary's inode. -/
structure BindEvent where
  sa_family : Nat
  sin_port : Nat
  pid : Nat
  binprm_inode : Nat
deriving DecidableEq, Repr

/-- `u16::from_be` on a 16-bit value: swap the two bytes
(line 42 of `socket_bind.rs`). -/
def fromBe16 (x : Nat) : Nat := (x % 256) * 256 + (x / 256) % 256

/-- The port-list scan shared by every rule site: `let len =
cmp::min(ports.len, MAX_PORTS); ports.ports[..len].contains(&port)`
(lines 57-58, 77-78, 88-89, 101-102, 111-112, 124-125). -/
def listMatches (r : Ports) (port : Nat) : Bool :=
  (r.ports.take (min r.len MAX_PORTS)).contains port

/-- A full rule check at one site: `if ports.all { ... } ;` then the
bounded list scan — the rule covers the port if `all` is set or the port
occurs in the first `min(len, MAX_PORTS)` stored entries. -/
def ruleMatches (r : Ports) (port : Nat) : Bool :=
  r.all || listMatches r port

/-- Rule check behind an `if let Some(ports) = MAP.get(&key)`: an absent
entry covers nothing. -/
def optMatches (o : Option Ports) (port : Nat) : Bool :=
  match o with
  | some r => ruleMatches r port
  | none => false

/-- The alert record built at each deny site:
`AlertSocketBind::new(ctx.pid(), binprm_inode, port)`. -/
def mkAlert (pid inode port : Nat) : AlertSocketBind :=
  { pid := pid, binprm_inode := inode, port := port }

/-- Lines 95-136 of `socket_bind.rs`: the wildcard-deny phase.  Look up
`DENIED_SOCKET_BIND[INODE_WILDCARD]`; if absent, fall through to `Ok(0)`.
If `all` is set, a matching `ALLOWED_SOCKET_BIND` entry at wildcard or
per-inode scope overrides to allow, otherwise deny with an alert.  If
`all` is clear, a port-list hit denies with an alert, otherwise allow. -/
def phase2 (m : Maps) (inode port pid : Nat) : Int × List AlertSocketBind :=
  match m.denied INODE_WILDCARD with
  | none => (0, [])
  | some r =>
    if r.all then
      if optMatches (m.allowed INODE_WILDCARD) port then (0, [])
      else if optMatches (m.allowed inode) port then (0, [])
      else (-1, [mkAlert pid inode port])
    else if listMatches r port then (-1, [mkAlert pid inode port])
    else (0, [])

/-- Lines 46-93 of `socket_bind.rs`: the wildcard-allow phase.  Look up
`ALLOWED_SOCKET_BIND[INODE_WILDCARD]`; if absent, fall through to
`phase2`.  If `all` is set, a matching `DENIED_SOCKET_BIND` entry at
wildcard or per-inode scope denies with an alert, otherwise fall through
to `phase2`.  If `all` is clear, a port-list hit allows immediately,
otherwise fall through to `phase2`. -/
def phase1 (m : Maps) (inode port pid : Nat) : Int × List AlertSocketBind :=
  match m.allowed INODE_WILDCARD with
  | none => phase2 m inode port pid
  | some r =>
    if r.all then
      if optMatches (m.denied INODE_WILDCARD) port then (-1, [mkAlert pid inode port])
      else if optMatches (m.denied inode) port then (-1, [mkAlert pid inode port])
      else phase2 m inode port pid
    else if listMatches r port then (0, [])
    else phase2 m inode port pid

/-- `socket_bind` (lines 34-137): non-IPv4 families return `Ok(0)` at
once (lines 37-39); otherwise the port is byte-swapped from the raw
`sin_port` field (line 42) and the two phases run.  The `i32` verdict is
paired with the list of alerts emitted to `ALERT_SOCKET_BIND`; the Rust
signature's `Result<i32, c_long>` is kept, and every return site of the
source constructs `Ok`. -/
def socket_bind (m : Maps) (ev : BindEvent) :
    Except Int (Int × List AlertSocketBind) :=
  if ev.sa_family ≠ AF_INET then Except.ok (0, [])
  else Except.ok (phase1 m ev.binprm_inode (fromBe16 ev.sin_port) ev.pid)

/-- The alert `socket_bind` builds for an event, when it denies. -/
def evAlert (ev : BindEvent) : AlertSocketBind :=
  mkAlert ev.pid ev.binprm_inode (fromBe16 ev.sin_port)

/-- The verdict component of a `socket_bind` result. -/
def verdictOf : Except Int (Int × List AlertSocketBind) → Option Int
  | Except.ok r => some r.1
  | Except.error _ => none

/-! Concrete snapshots used to exercise the theorems. -/

/-- A rule with the `all` flag set. -/
def allRule : Ports := { all := true, len := 0, ports := [] }

/-- Both maps empty. -/
def emptyMaps : Maps := { allowed := fun _ => none, denied := fun _ => none }

/-- Only a wildcard deny-all entry. -/
def denyAllMaps : Maps :=
  { allowed := fun _ => none,
    denied := fun k => if k = INODE_WILDCARD then some allRule else none }

/-! Helper lemmas shared by several claims. -/

/-- Phase 2 either allows with no alert or denies with exactly one alert. -/
theorem phase2_cases (m : Maps) (inode port pid : Nat) :
    phase2 m inode port pid = (0, []) ∨
    phase2 m inode port pid = (-1, [mkAlert pid inode port]) := by
  unfold phase2
  split
  · exact Or.inl rfl
  · split
    · split
      · exact Or.inl rfl
      · split
        · exact Or.inl rfl
        · exact Or.inr rfl
    · split
      · exact Or.inr rfl
      · exact Or.inl rfl

/-- Phase 1 (with its fall-through to phase 2) either allows with no alert
or denies with exactly one alert. -/
theorem phase1_cases (m : Maps) (inode port pid : Nat) :
    phase1 m inode port pid = (0, []) ∨
    phase1 m inode port pid = (-1, [mkAlert pid inode port]) := by
  unfold phase1
  split
  · exact phase2_cases m inode port pid
  · split
    · split
      · exact Or.inr rfl
      · split
        · exact Or.inr rfl
        · exact phase2_cases m inode port pid
    · split
      · exact Or.inl rfl
      · exact phase2_cases m inode port pid

/-- The verdict of phase 1 does not depend on the pid (the pid only enters
the alert payload). -/
theorem phase1_fst_pid (m : Maps) (inode port pid pid' : Nat) :
    (phase1 m inode port pid).1 = (phase1 m inode port pid').1 := by
  unfold phase1 phase2
  repeat' split
  all_goals rfl

/-! The claims. -/

/-- C6: for every bind event whose address family is not `AF_INET`,
`socket_bind` returns `Ok(0)` immediately, with no alert, whatever the
two policy maps hold (the maps are universally quantified, so neither is
consulted). -/
theorem c6_non_ipv4_bypass (m : Maps) (ev : BindEvent)
    (h : ev.sa_family ≠ AF_INET) :
    socket_bind m ev = Except.ok (0, []) := by
  unfold socket_bind
  simp [h]

/-- C6 witness: a family-3 (non-IPv4) event is allowed even under a
wildcard deny-all snapshot. -/
theorem c6_witness :
    (3 : Nat) ≠ AF_INET ∧
    socket_bind denyAllMaps ⟨3, 5632, 7, 5⟩ = Except.ok (0, []) :=
  ⟨by decide, c6_non_ipv4_bypass denyAllMaps ⟨3, 5632, 7, 5⟩ (by decide)⟩

/-- C7: with both maps empty (no wildcard and no per-subject entry), every
IPv4 bind is allowed and no alert is emitted. -/
theorem c7_default_allow (m : Maps) (ev : BindEvent)
    (ha : ∀ k, m.allowed k = none) (hd : ∀ k, m.denied k = none)
    (hf : ev.sa_family = AF_INET) :
    socket_bind m ev = Except.ok (0, []) := by
  unfold socket_bind phase1 phase2
  simp [hf, ha, hd]

/-- C7 witness: the empty snapshot allows an IPv4 bind to port 22
(raw big-endian field 5632). -/
theorem c7_witness :
    socket_bind emptyMaps ⟨2, 5632, 7, 5⟩ = Except.ok (0, []) :=
  c7_default_allow emptyMaps ⟨2, 5632, 7, 5⟩ (fun _ => rfl) (fun _ => rfl) rfl

/-- C1: a lone per-subject deny-all entry (`Denied[S] = {all:true}`) with
no wildcard entry in either table has no effect: every IPv4 bind by S is
allowed with no alert, because `Denied[subject]` is consulted only inside
the wildcard-allow-all branch of phase 1. -/
theorem c1_lone_subject_deny_ignored (m : Maps) (ev : BindEvent) (r : Ports)
    (haw : m.allowed INODE_WILDCARD = none)
    (hdw : m.denied INODE_WILDCARD = none)
    (hds : m.denied ev.binprm_inode = some r)
    (hall : r.all = true)
    (hf : ev.sa_family = AF_INET) :
    socket_bind m ev = Except.ok (0, []) := by
  unfold socket_bind phase1 phase2
  simp [hf, haw, hdw]

/-- Snapshot for C1: only `Denied[5] = {all:true}`, no wildcard entries. -/
def c1Maps : Maps :=
  { allowed := fun _ => none,
    denied := fun k => if k = 5 then some allRule else none }

/-- C1 witness: under `c1Maps`, subject 5 binding port 22 is allowed with
no alert. -/
theorem c1_witness :
    c1Maps.denied 5 = some allRule ∧ allRule.all = true ∧
    socket_bind c1Maps ⟨2, 5632, 7, 5⟩ = Except.ok (0, []) :=
  ⟨rfl, rfl,
    c1_lone_subject_deny_ignored c1Maps ⟨2, 5632, 7, 5⟩ allRule rfl rfl rfl rfl rfl⟩

/-- C2: with `Allowed[Wildcard] = {all:true}` and
`Denied[Wildcard] = {all:true}`, every IPv4 bind by every subject is
denied with one alert: phase 1's wildcard-deny check fires before phase
2's allow-override could be reached. -/
theorem c2_both_all_true_denies (m : Maps) (ev : BindEvent) (a d : Ports)
    (haw : m.allowed INODE_WILDCARD = some a) (ha : a.all = true)
    (hdw : m.denied INODE_WILDCARD = some d) (hd : d.all = true)
    (hf : ev.sa_family = AF_INET) :
    socket_bind m ev = Except.ok (-1, [evAlert ev]) := by
  unfold socket_bind phase1
  simp [hf, haw, ha, hdw, hd, optMatches, ruleMatches, evAlert]

/-- Snapshot for C2: wildcard all-true entries in both maps. -/
def c2Maps : Maps :=
  { allowed := fun k => if k = INODE_WILDCARD then some allRule else none,
    denied := fun k => if k = INODE_WILDCARD then some allRule else none }

/-- C2 witness: under `c2Maps`, subject 5 binding port 22 is denied with
exactly one alert carrying pid 7, inode 5 and port 22. -/
theorem c2_witness :
    socket_bind c2Maps ⟨2, 5632, 7, 5⟩ =
      Except.ok (-1, [⟨7, 5, 22⟩]) :=
  c2_both_all_true_denies c2Maps ⟨2, 5632, 7, 5⟩ allRule allRule rfl rfl rfl rfl rfl

/-- C3: global deny-all (`Denied[Wildcard] = {all:true}`, no
`Allowed[Wildcard]`) with a per-subject override `Allowed[S] = {all:true}`:
subject S is allowed on every IPv4 port with no alert, while a subject
with no `Allowed` entry is denied with one alert carrying its identity and
port. -/
theorem c3_global_deny_subject_override (m : Maps) (d a : Ports)
    (ev ev' : BindEvent)
    (hdw : m.denied INODE_WILDCARD = some d) (hd : d.all = true)
    (haw : m.allowed INODE_WILDCARD = none)
    (hs : m.allowed ev.binprm_inode = some a) (hsa : a.all = true)
    (hs' : m.allowed ev'.binprm_inode = none)
    (hf : ev.sa_family = AF_INET) (hf' : ev'.sa_family = AF_INET) :
    socket_bind m ev = Except.ok (0, []) ∧
    socket_bind m ev' = Except.ok (-1, [evAlert ev']) := by
  constructor
  · unfold socket_bind phase1 phase2
    simp [hf, haw, hdw, hd, hs, hsa, optMatches, ruleMatches]
  · unfold socket_bind phase1 phase2
    simp [hf', haw, hdw, hd, hs', optMatches, evAlert]

/-- Snapshot for C3: wildcard deny-all, `Allowed[5] = {all:true}`. -/
def c3Maps : Maps :=
  { allowed := fun k => if k = 5 then some allRule else none,
    denied := fun k => if k = INODE_WILDCARD then some allRule else none }

/-- C3 witness: under `c3Maps`, subject 5 binding port 22 is allowed; the
other subject 9 is denied with one alert carrying pid 8, inode 9, port 22. -/
theorem c3_witness :
    socket_bind c3Maps ⟨2, 5632, 7, 5⟩ = Except.ok (0, []) ∧
    socket_bind c3Maps ⟨2, 5632, 8, 9⟩ = Except.ok (-1, [⟨8, 9, 22⟩]) :=
  c3_global_deny_subject_override c3Maps allRule allRule
    ⟨2, 5632, 7, 5⟩ ⟨2, 5632, 8, 9⟩ rfl rfl rfl rfl rfl rfl rfl rfl

/-- The wildcard deny list of C4: `{all:false, len:1, ports:[22]}`. -/
def deny22Rule : Ports := { all := false, len := 1, ports := [22] }

/-- C4: global allow-all (`Allowed[Wildcard] = {all:true}`) with a
wildcard deny list `Denied[Wildcard] = {all:false, ports:[22]}` and no
`Denied` entry for the subject: binding port 22 is denied with one alert,
and binding any port other than 22 is allowed with no alert. -/
theorem c4_allow_all_with_deny_list (m : Maps) (a : Ports)
    (ev ev' : BindEvent)
    (haw : m.allowed INODE_WILDCARD = some a) (ha : a.all = true)
    (hdw : m.denied INODE_WILDCARD = some deny22Rule)
    (hds : m.denied ev.binprm_inode = none)
    (hds' : m.denied ev'.binprm_inode = none)
    (hf : ev.sa_family = AF_INET) (hf' : ev'.sa_family = AF_INET)
    (hp : fromBe16 ev.sin_port = 22) (hp' : fromBe16 ev'.sin_port ≠ 22) :
    socket_bind m ev = Except.ok (-1, [evAlert ev]) ∧
    socket_bind m ev' = Except.ok (0, []) := by
  constructor
  · unfold socket_bind phase1
    simp [hf, haw, ha, hdw, hp, optMatches, ruleMatches, listMatches,
      deny22Rule, MAX_PORTS, evAlert]
  · unfold socket_bind phase1 phase2
    simp [hf', haw, ha, hdw, hds', hp', optMatches, ruleMatches, listMatches,
      deny22Rule, MAX_PORTS]

/-- Snapshot for C4: wildcard allow-all plus the port-22 wildcard deny
list. -/
def c4Maps : Maps :=
  { allowed := fun k => if k = INODE_WILDCARD then some allRule else none,
    denied := fun k => if k = INODE_WILDCARD then some deny22Rule else none }

/-- C4 witness: under `c4Maps`, subject 5 binding port 22 is denied with
one alert and binding port 80 (raw field 20480) is allowed. -/
theorem c4_witness :
    socket_bind c4Maps ⟨2, 5632, 7, 5⟩ = Except.ok (-1, [⟨7, 5, 22⟩]) ∧
    socket_bind c4Maps ⟨2, 20480, 7, 5⟩ = Except.ok (0, []) :=
  c4_allow_all_with_deny_list c4Maps allRule ⟨2, 5632, 7, 5⟩ ⟨2, 20480, 7, 5⟩
    rfl rfl rfl rfl rfl rfl rfl rfl (by decide)

/-- C5: for a rule with `all = false`, matching consults only the first
`min(len, MAX_PORTS)` stored entries: a port absent from the first
`MAX_PORTS` entries never matches, whatever the declared `len`, at the
matcher shared by all rule sites; and a wildcard deny list holding such a
port only beyond `MAX_PORTS` never denies a bind to it. -/
theorem c5_port_list_bounded (r : Ports) (p : Nat)
    (hall : r.all = false)
    (hp : p ∉ r.ports.take MAX_PORTS) :
    listMatches r p = false ∧ ruleMatches r p = false ∧
    (∀ (m : Maps) (ev : BindEvent), ev.sa_family = AF_INET →
      fromBe16 ev.sin_port = p →
      m.allowed INODE_WILDCARD = none →
      m.denied INODE_WILDCARD = some r →
      socket_bind m ev = Except.ok (0, [])) := by
  have hsub : r.ports.take (min r.len MAX_PORTS) ⊆ r.ports.take MAX_PORTS := by
    have h1 : (r.ports.take MAX_PORTS).take r.len =
        r.ports.take (min r.len MAX_PORTS) := List.take_take r.len MAX_PORTS r.ports
    rw [← h1]
    exact List.take_subset r.len (r.ports.take MAX_PORTS)
  have hmem : p ∉ r.ports.take (min r.len MAX_PORTS) := fun hin => hp (hsub hin)
  have hl : listMatches r p = false := by
    unfold listMatches
    simpa using hmem
  refine ⟨hl, ?_, ?_⟩
  · unfold ruleMatches
    rw [hall, hl]
    rfl
  · intro m ev hf hport haw hdw
    unfold socket_bind phase1 phase2
    rw [hport] at *
    simp [hf, haw, hdw, hall, hl]

/-- The C5 rule: declared length 40, the probe port 9999 stored only at
index 35, past the `MAX_PORTS = 32` bound. -/
def c5Rule : Ports :=
  { all := false, len := 40,
    ports := [0, 0, 0, 0, 0, 0, 0, 0, 0, 0, 0, 0, 0, 0, 0, 0, 0, 0,
              0, 0, 0, 0, 0, 0, 0, 0, 0, 0, 0, 0, 0, 0, 0, 0, 0, 9999] }

/-- Snapshot for C5: only the wildcard deny list `c5Rule`. -/
def c5Maps : Maps :=
  { allowed := fun _ => none,
    denied := fun k => if k = INODE_WILDCARD then some c5Rule else none }

/-- C5 witness: port 9999 is stored in `c5Rule` (at index 35) yet, with
`len = 40`, it never matches, and a bind to it (raw field 3879 =
`fromBe16⁻¹ 9999`) under `c5Maps` is allowed. -/
theorem c5_witness :
    (9999 : Nat) ∈ c5Rule.ports ∧
    9999 ∉ c5Rule.ports.take MAX_PORTS ∧
    listMatches c5Rule 9999 = false ∧
    ruleMatches c5Rule 9999 = false ∧
    socket_bind c5Maps ⟨2, 3879, 7, 5⟩ = Except.ok (0, []) := by
  have h := c5_port_list_bounded c5Rule 9999 rfl (by decide)
  exact ⟨by decide, by decide, h.1, h.2.1,
    h.2.2 c5Maps ⟨2, 3879, 7, 5⟩ rfl (by decide) rfl rfl⟩

/-- C8: every evaluation either allows with no alert or denies with
exactly one alert carrying the event's pid, binary inode and port — an
alert is emitted if and only if the verdict is `-1`, and then exactly
once. -/
theorem c8_alert_iff_deny (m : Maps) (ev : BindEvent) :
    socket_bind m ev = Except.ok (0, []) ∨
    socket_bind m ev = Except.ok (-1, [evAlert ev]) := by
  unfold socket_bind
  by_cases h : ev.sa_family = AF_INET
  · rcases phase1_cases m ev.binprm_inode (fromBe16 ev.sin_port) ev.pid with h1 | h1 <;>
      simp [h, h1, evAlert]
  · simp [h]

/-- C9: the verdict is a function of the map snapshot, the address
family, the raw port field and the subject's inode alone: two events
agreeing on those (the pid may differ, and a fortiori the same event
twice) receive the same verdict under the same snapshot. -/
theorem c9_deterministic (m : Maps) (e e' : BindEvent)
    (hf : e.sa_family = e'.sa_family)
    (hp : e.sin_port = e'.sin_port)
    (hi : e.binprm_inode = e'.binprm_inode) :
    verdictOf (socket_bind m e) = verdictOf (socket_bind m e') := by
  unfold socket_bind
  rw [hf, hp, hi]
  by_cases h : e'.sa_family = AF_INET
  · simp only [h, ne_eq, not_true_eq_false, if_false, verdictOf]
    exact congrArg some
      (phase1_fst_pid m e'.binprm_inode (fromBe16 e'.sin_port) e.pid e'.pid)
  · simp [h]

/-- C9 witness: under the deny-all snapshot, two evaluations of the same
(subject, port) with different pids yield the same verdict. -/
theorem c9_witness :
    verdictOf (socket_bind denyAllMaps ⟨2, 5632, 7, 5⟩) =
      verdictOf (socket_bind denyAllMaps ⟨2, 5632, 8, 5⟩) :=
  c9_deterministic denyAllMaps ⟨2, 5632, 7, 5⟩ ⟨2, 5632, 8, 5⟩ rfl rfl rfl

/-- C10: `socket_bind` is total over its two-valued verdict: every input
yields `Ok(0)` or `Ok(-1)`; the `Err` branch of the caller convention is
never produced by this function. -/
theorem c10_total_ok (m : Maps) (ev : BindEvent) :
    ∃ v alerts, socket_bind m ev = Except.ok (v, alerts) ∧
      (v = 0 ∨ v = -1) := by
  unfold socket_bind
  by_cases h : ev.sa_family = AF_INET
  · rcases phase1_cases m ev.binprm_inode (fromBe16 ev.sin_port) ev.pid with h1 | h1
    · exact ⟨0, [], by simp [h, h1], Or.inl rfl⟩
    · exact ⟨-1, [mkAlert ev.pid ev.binprm_inode (fromBe16 ev.sin_port)],
        by simp [h, h1], Or.inr rfl⟩
  · exact ⟨0, [], by simp [h], Or.inl rfl⟩

end SocketBind
